import Mathlib

/-!
Verification development for the disaster-statistics dashboard
(`dash_app.py`, `utils.py`).

The Python source is shallowly embedded: a pandas `DataFrame` row becomes a
`Record`, the module-level `data` frame becomes a `List Record`, dash callback
functions become Lean functions on those lists, and a Python exception becomes
`Except.error`.  Numeric statistic columns are modelled as `Option ℚ`
(pandas `NaN` = `none`); the `year` column is modelled as `String` because the
source converts it with `data['year'] = data['year'].astype(str)` right after
loading and every later comparison happens on those strings.
-/

namespace Dash

/-- Computable lexicographic string comparison (the order pandas uses when it
compares an object column against a Python string).  It is stated on the
character lists so that concrete instances evaluate inside the kernel. -/
def strLe (a b : String) : Bool := decide (a.data ≤ b.data)

theorem strLe_iff (a b : String) : strLe a b = true ↔ a ≤ b := by
  rw [String.le_iff_toList_le]
  simp [strLe, String.toList]

/-- One row of the loaded dataset (`cleaned_emrat.xlsx` after the dtype fixes
at the top of `dash_app.py`): `year` is a string, `month` is nullable, the
three statistic columns are nullable numerics. -/
structure Record where
  id : Nat
  country : String
  region : String
  subregion : String
  type : String
  year : String
  month : Option Nat
  total_deaths : Option ℚ
  total_affected : Option ℚ
  total_damage : Option ℚ
deriving DecidableEq, Repr

/-- The six filter inputs of the `store_data` callback.  A dash multi-dropdown
delivers either `None` or a list; both `None` and `[]` fail the pythonic
truthiness test `if selected_x and isinstance(selected_x, list)`, so they are
modelled together as the empty list.  The year slider delivers `None` or a
two-element list `[lo, hi]`, modelled as `Option (Int × Int)`. -/
structure Criteria where
  continents : List String
  subregions : List String
  countries : List String
  yearRange : Option (Int × Int)
  months : List Nat
  types : List String
deriving DecidableEq, Repr

/-- The row predicate accumulated in the `mask` series of `store_data`:
one conjunct per non-empty criterion, membership within a criterion, and the
year bounds compared as strings (`str(selected_year[0]) <= data['year']`
etc., lexicographic string order, exactly as pandas compares an object
column against a Python string). -/
def rowMask (c : Criteria) (r : Record) : Bool :=
  (c.continents.isEmpty || decide (r.region ∈ c.continents)) &&
  (c.subregions.isEmpty || decide (r.subregion ∈ c.subregions)) &&
  (c.countries.isEmpty || decide (r.country ∈ c.countries)) &&
  (match c.yearRange with
   | none => true
   | some (lo, hi) => strLe (toString lo) r.year && strLe r.year (toString hi)) &&
  (c.months.isEmpty ||
   match r.month with
   | some m => decide (m ∈ c.months)
   | none => false) &&
  (c.types.isEmpty || decide (r.type ∈ c.types))

/-- Specification-level satisfaction: a record satisfies every non-empty
criterion field, with membership inside a multi-valued field and the year
range inclusive on both ends (on the stored string representation). -/
def satisfiesCriteria (c : Criteria) (r : Record) : Prop :=
  (c.continents = [] ∨ r.region ∈ c.continents) ∧
  (c.subregions = [] ∨ r.subregion ∈ c.subregions) ∧
  (c.countries = [] ∨ r.country ∈ c.countries) ∧
  (match c.yearRange with
   | none => True
   | some (lo, hi) => toString lo ≤ r.year ∧ r.year ≤ toString hi) ∧
  (c.months = [] ∨ ∃ m, r.month = some m ∧ m ∈ c.months) ∧
  (c.types = [] ∨ r.type ∈ c.types)

/-- The `store_data` callback, with the module-level `data` frame passed in
explicitly as `store` and returned again so that the effect on it is visible.

In the source, `filtered_data = data` binds the same frame, so the month
branch `filtered_data['month'] = filtered_data['month'].astype(int)` writes
the coerced column back into the shared store before masking; on a null
month, `astype(int)` raises `ValueError` (modelled as `Except.error`).  The
returned pair is (store after the call, the filtered subset that is sent to
`dcc.Store`). -/
def store_data (store : List Record) (c : Criteria) :
    Except String (List Record × List Record) :=
  if c.months.isEmpty then
    Except.ok (store, store.filter (rowMask c))
  else if store.all (fun r => r.month.isSome) then
    let store2 := store.map (fun r => { r with month := some (r.month.getD 0) })
    Except.ok (store2, store2.filter (rowMask c))
  else
    Except.error "ValueError: cannot convert NA to integer"

/-- Rewriting the month field with its own coerced value is the identity on a
record whose month is non-null. -/
theorem month_rewrite_eq (r : Record) (h : r.month.isSome) :
    { r with month := some (r.month.getD 0) } = r := by
  cases r with
  | mk id country region subregion type year month d a dam =>
    cases month with
    | none => simp at h
    | some m => rfl

theorem store_map_month_eq (store : List Record)
    (h : store.all (fun r => r.month.isSome)) :
    store.map (fun r => { r with month := some (r.month.getD 0) }) = store := by
  induction store with
  | nil => rfl
  | cons r rest ih =>
    simp only [List.all_cons, Bool.and_eq_true] at h
    simp [month_rewrite_eq r h.1, ih h.2]

/-- The boolean mask agrees with the specification-level predicate. -/
theorem rowMask_iff (c : Criteria) (r : Record) :
    rowMask c r = true ↔ satisfiesCriteria c r := by
  cases hy : c.yearRange with
  | none =>
    cases hm : r.month <;>
      simp [rowMask, satisfiesCriteria, hy, hm, List.isEmpty_iff,
        Bool.and_eq_true, Bool.or_eq_true, decide_eq_true_eq, and_assoc]
  | some p =>
    cases p with
    | mk lo hi =>
      cases hm : r.month <;>
        simp [rowMask, satisfiesCriteria, hy, hm, List.isEmpty_iff,
          Bool.and_eq_true, Bool.or_eq_true, decide_eq_true_eq, and_assoc,
          strLe_iff]

/-- When no month criterion is active, or every stored month is non-null, the
callback succeeds and returns the store unchanged together with the masked
subset. -/
theorem store_data_ok (store : List Record) (c : Criteria)
    (h : c.months = [] ∨ ∀ r ∈ store, r.month.isSome) :
    store_data store c = Except.ok (store, store.filter (rowMask c)) := by
  cases h with
  | inl h0 => simp [store_data, h0]
  | inr h1 =>
    by_cases he : c.months.isEmpty
    · simp [store_data, he]
    · have hall : store.all (fun r => r.month.isSome) = true :=
        List.all_eq_true.mpr h1
      simp [store_data, he, hall, store_map_month_eq store hall]

/-- Sample record: a non-null month. -/
def rA : Record :=
  ⟨1, "China", "Asia", "Eastern Asia", "Flood", "2010", some 7,
   some 10, some 100, some 1000⟩

/-- Sample record: a null month, as the schema allows. -/
def rB : Record :=
  ⟨2, "France", "Europe", "Western Europe", "Storm", "2012", none,
   some 5, none, some 500⟩

/-- C1 counterexample: the claim quantifies over every record set and every
criteria, but on a store holding a record with a null month and a criteria
that selects a month, `store_data` raises (the `astype(int)` coercion of the
month column), so no subset at all is returned. -/
theorem C1_apply_counterexample :
    store_data [rB] ⟨[], [], [], none, [7], []⟩ =
      Except.error "ValueError: cannot convert NA to integer" := rfl

/-- C1 (amended): when the criteria has no month selection, or every stored
month is non-null, `apply` succeeds; the result is a subset of the input, a
record is included iff it satisfies every non-empty criterion field (AND
across dimensions, membership within one, year range inclusive on both ends
in the stored string order), and applying the same criteria again returns the
same subset. -/
theorem C1_apply_subset_iff_idem (store : List Record) (c : Criteria)
    (h : c.months = [] ∨ ∀ r ∈ store, r.month.isSome) :
    store_data store c = Except.ok (store, store.filter (rowMask c)) ∧
    (∀ r ∈ store.filter (rowMask c), r ∈ store) ∧
    (∀ r, r ∈ store.filter (rowMask c) ↔ r ∈ store ∧ satisfiesCriteria c r) ∧
    store_data (store.filter (rowMask c)) c =
      Except.ok (store.filter (rowMask c), store.filter (rowMask c)) := by
  refine ⟨store_data_ok store c h, ?_, ?_, ?_⟩
  · intro r hr
    exact List.mem_of_mem_filter hr
  · intro r
    rw [List.mem_filter, rowMask_iff]
  · have h2 : c.months = [] ∨ ∀ r ∈ store.filter (rowMask c), r.month.isSome := by
      cases h with
      | inl h0 => exact Or.inl h0
      | inr h1 => exact Or.inr fun r hr => h1 r (List.mem_of_mem_filter hr)
    have hfix : (store.filter (rowMask c)).filter (rowMask c) =
        store.filter (rowMask c) :=
      List.filter_eq_self.mpr fun r hr => List.of_mem_filter hr
    rw [store_data_ok (store.filter (rowMask c)) c h2, hfix]

/-- C1 witness: a concrete two-record store and a criteria with continent,
year-range and type selections; the filtered subset is exactly the matching
record. -/
theorem C1_apply_witness :
    store_data [rA, rB] ⟨["Asia"], [], [], some (2000, 2024), [], ["Flood"]⟩ =
      Except.ok ([rA, rB], [rA]) := by
  have h := (C1_apply_subset_iff_idem [rA, rB]
    ⟨["Asia"], [], [], some (2000, 2024), [], ["Flood"]⟩ (Or.inl rfl)).1
  rw [h]
  congr 1

/-- C3: applying a month filter to a store holding a record with a null month
makes the callback fault inside
`filtered_data['month'] = filtered_data['month'].astype(int)` — the line
that rewrites the month column of the shared store in place — instead of
returning a subset and leaving the store untouched. -/
theorem C3_month_filter_faults :
    store_data [rA, rB] ⟨[], [], [], none, [3, 4], []⟩ =
      Except.error "ValueError: cannot convert NA to integer" := rfl

/-! ### Value formatter (`utils.format_value`) -/

/-- Round half to even, the rounding Python `format` applies to a numeric
value. -/
def roundHalfEven (q : ℚ) : ℤ :=
  if q - ⌊q⌋ < 1 / 2 then ⌊q⌋
  else if 1 / 2 < q - ⌊q⌋ then ⌊q⌋ + 1
  else if ⌊q⌋ % 2 = 0 then ⌊q⌋ else ⌊q⌋ + 1

/-- Rendering of `f"{value:.0f}"`. -/
def fmt0 (q : ℚ) : String := toString (roundHalfEven q)

/-- Rendering of `f"{value:.1f}"` for the non-negative statistics the
dashboard formats: one decimal digit, round half to even. -/
def fmt1 (q : ℚ) : String :=
  let n := roundHalfEven (q * 10)
  toString (n / 10) ++ "." ++ toString (n % 10)

/-- The `format_value` helper of `utils.py`: `None` becomes `"N/A"`, values
below the K/M/B thresholds are rendered with the matching suffix. -/
def format_value : Option ℚ → String
  | none => "N/A"
  | some value =>
    if value < 1000 then fmt0 value
    else if value < 1000000 then fmt1 (value / 1000) ++ "K"
    else if value < 1000000000 then fmt1 (value / 1000000) ++ "M"
    else fmt1 (value / 1000000000) ++ "B"

/-- Python rounds a value that is already an integer to itself. -/
theorem roundHalfEven_intCast (n : ℤ) : roundHalfEven (n : ℚ) = n := by
  have h : ((n : ℚ) - ⌊(n : ℚ)⌋ : ℚ) = 0 := by
    rw [Int.floor_intCast]
    ring
  rw [roundHalfEven, h]
  norm_num

theorem fmt0_intCast (n : ℤ) : fmt0 (n : ℚ) = toString n := by
  rw [fmt0, roundHalfEven_intCast]

/-- C7: the four documented instances of `format_value` and the four
threshold clauses (integer rendering below 1,000, one-decimal `K`, `M`, `B`
renderings above). -/
theorem C7_format_value_thresholds :
    format_value none = "N/A" ∧
    format_value (some 999) = "999" ∧
    format_value (some 1500) = "1.5K" ∧
    format_value (some 2300000) = "2.3M" ∧
    (∀ q : ℚ, q < 1000 → format_value (some q) = fmt0 q) ∧
    (∀ q : ℚ, 1000 ≤ q → q < 1000000 →
      format_value (some q) = fmt1 (q / 1000) ++ "K") ∧
    (∀ q : ℚ, 1000000 ≤ q → q < 1000000000 →
      format_value (some q) = fmt1 (q / 1000000) ++ "M") ∧
    (∀ q : ℚ, 1000000000 ≤ q →
      format_value (some q) = fmt1 (q / 1000000000) ++ "B") := by
  have hb : ∀ q : ℚ, 1000 ≤ q → ¬ q < 1000 := fun q h => not_lt.mpr h
  refine ⟨rfl, ?_, ?_, ?_, ?_, ?_, ?_, ?_⟩
  · have h999 : ((999 : ℤ) : ℚ) = 999 := by norm_num
    rw [format_value, if_pos (by norm_num), ← h999, fmt0_intCast]
    decide
  · rw [format_value, if_neg (by norm_num), if_pos (by norm_num)]
    have h15 : ((1500 : ℚ) / 1000) * 10 = ((15 : ℤ) : ℚ) := by norm_num
    rw [fmt1, h15, roundHalfEven_intCast]
    decide
  · rw [format_value, if_neg (by norm_num), if_neg (by norm_num),
      if_pos (by norm_num)]
    have h23 : ((2300000 : ℚ) / 1000000) * 10 = ((23 : ℤ) : ℚ) := by norm_num
    rw [fmt1, h23, roundHalfEven_intCast]
    decide
  · intro q h
    rw [format_value, if_pos h]
  · intro q h1 h2
    rw [format_value, if_neg (hb q h1), if_pos h2]
  · intro q h1 h2
    rw [format_value, if_neg (hb q (by linarith)), if_neg (not_lt.mpr h1),
      if_pos h2]
  · intro q h1
    rw [format_value, if_neg (hb q (by linarith)),
      if_neg (not_lt.mpr (by linarith : (1000000 : ℚ) ≤ q)),
      if_neg (not_lt.mpr h1)]

/-- C7 witness: the below-1,000 threshold clause applied at 500. -/
theorem C7_format_value_witness :
    ((500 : ℚ) < 1000) ∧ format_value (some 500) = fmt0 500 :=
  ⟨by norm_num, C7_format_value_thresholds.2.2.2.2.1 500 (by norm_num)⟩

/-! ### Header formatter (`utils.generate_header`) -/

/-- The `selected_year` argument: the year slider sends a two-element list,
other callers could send a bare year or `None` (the source tests
`isinstance(selected_year, list)` and then `is not None`). -/
inductive YearSel where
  | list (lo hi : Int)
  | single (y : Int)
  | absent
deriving DecidableEq, Repr

/-- The `month_map` dictionary of `generate_header`; a key outside 1..12 is
absent (a lookup on it raises `KeyError`). -/
def month_map : Nat → Option String
  | 1 => some "January"
  | 2 => some "February"
  | 3 => some "March"
  | 4 => some "April"
  | 5 => some "May"
  | 6 => some "June"
  | 7 => some "July"
  | 8 => some "August"
  | 9 => some "September"
  | 10 => some "October"
  | 11 => some "November"
  | 12 => some "December"
  | _ => none

/-- The `generate_header` helper of `utils.py`.  The disaster phrase, the
year phrase and the month phrase are appended to the base text in that
order; a month key missing from `month_map` raises `KeyError` (modelled as
`Except.error`), and `if selected_month:` means month `0` or `None` appends
nothing. -/
def generate_header (header_text : String) (selected_disasters : List String)
    (selected_year : YearSel) (selected_month : Option Nat) :
    Except String String :=
  let t1 :=
    match selected_disasters with
    | [d] => header_text ++ d
    | [d1, d2] => header_text ++ d1 ++ " and " ++ d2
    | _ => header_text ++ "disasters"
  let t2 :=
    match selected_year with
    | .list lo hi =>
      if lo ≠ hi then t1 ++ ", " ++ toString lo ++ " to " ++ toString hi
      else t1 ++ " in " ++ toString lo
    | .single y => t1 ++ " in " ++ toString y
    | .absent => t1
  match selected_month with
  | some m =>
    if m ≠ 0 then
      match month_map m with
      | some name => Except.ok (t2 ++ " in " ++ name)
      | none => Except.error "KeyError"
    else Except.ok t2
  | none => Except.ok t2

/-- Disaster-type phrase as the specification words it: one type is named,
two are joined with "and", zero or three-or-more give the generic word. -/
def typePhrase : List String → String
  | [d] => d
  | [d1, d2] => d1 ++ " and " ++ d2
  | _ => "disasters"

/-- Year phrase as the specification words it: a collapsed range names the
single year, a proper range names both ends. -/
def yearPhrase : YearSel → String
  | .list lo hi =>
    if lo ≠ hi then ", " ++ toString lo ++ " to " ++ toString hi
    else " in " ++ toString lo
  | .single y => " in " ++ toString y
  | .absent => ""

theorem generate_header_ok (t : String) (ds : List String) (ys : YearSel) :
    generate_header t ds ys none = Except.ok (t ++ typePhrase ds ++ yearPhrase ys) := by
  rcases ys with ⟨lo, hi⟩ | y | _
  · by_cases h : lo = hi <;>
      rcases ds with _ | ⟨d1, _ | ⟨d2, _ | ⟨d3, rest⟩⟩⟩ <;>
        (simp [generate_header, typePhrase, yearPhrase, h, String.append_assoc] <;>
          simp [← String.append_assoc])
  · rcases ds with _ | ⟨d1, _ | ⟨d2, _ | ⟨d3, rest⟩⟩⟩ <;>
      (simp [generate_header, typePhrase, yearPhrase, String.append_assoc] <;>
        simp [← String.append_assoc])
  · rcases ds with _ | ⟨d1, _ | ⟨d2, _ | ⟨d3, rest⟩⟩⟩ <;>
      (simp [generate_header, typePhrase, yearPhrase, String.append_assoc] <;>
        simp [← String.append_assoc])

theorem generate_header_month_ok (t : String) (ds : List String) (ys : YearSel)
    (m : Nat) (name : String) (h : month_map m = some name) :
    generate_header t ds ys (some m) =
      Except.ok (t ++ typePhrase ds ++ yearPhrase ys ++ " in " ++ name) := by
  have hm : m ≠ 0 := by
    intro h0
    rw [h0] at h
    simp [month_map] at h
  rcases ys with ⟨lo, hi⟩ | y | _
  · by_cases hy : lo = hi <;>
      rcases ds with _ | ⟨d1, _ | ⟨d2, _ | ⟨d3, rest⟩⟩⟩ <;>
        (simp [generate_header, typePhrase, yearPhrase, hy, hm, h,
          String.append_assoc] <;> simp [← String.append_assoc])
  · rcases ds with _ | ⟨d1, _ | ⟨d2, _ | ⟨d3, rest⟩⟩⟩ <;>
      (simp [generate_header, typePhrase, yearPhrase, hm, h,
        String.append_assoc] <;> simp [← String.append_assoc])
  · rcases ds with _ | ⟨d1, _ | ⟨d2, _ | ⟨d3, rest⟩⟩⟩ <;>
      (simp [generate_header, typePhrase, yearPhrase, hm, h,
        String.append_assoc] <;> simp [← String.append_assoc])

/-- C8: the header formatter names 1 selected type, joins exactly 2 with
"and", falls back to the generic word for 0 or 3-or-more; a collapsed year
range is shown as "in y", a proper range as "lo to hi"; a valid single month
code appends its full English name; and the documented concrete instance
holds. -/
theorem C8_generate_header_rules :
    generate_header "Trends of " ["Flood", "Storm"] (YearSel.list 2005 2010) none
      = Except.ok "Trends of Flood and Storm, 2005 to 2010" ∧
    (∀ t d ys, generate_header t [d] ys none = Except.ok (t ++ d ++ yearPhrase ys)) ∧
    (∀ t d1 d2 ys, generate_header t [d1, d2] ys none
      = Except.ok (t ++ (d1 ++ " and " ++ d2) ++ yearPhrase ys)) ∧
    (∀ t ys, generate_header t [] ys none
      = Except.ok (t ++ "disasters" ++ yearPhrase ys)) ∧
    (∀ t d1 d2 d3 ds ys, generate_header t (d1 :: d2 :: d3 :: ds) ys none
      = Except.ok (t ++ "disasters" ++ yearPhrase ys)) ∧
    (∀ lo hi : Int, lo ≠ hi →
      yearPhrase (YearSel.list lo hi) = ", " ++ toString lo ++ " to " ++ toString hi) ∧
    (∀ y : Int, yearPhrase (YearSel.list y y) = " in " ++ toString y) ∧
    (∀ t ds ys m name, month_map m = some name →
      generate_header t ds ys (some m)
        = Except.ok (t ++ typePhrase ds ++ yearPhrase ys ++ " in " ++ name)) := by
  refine ⟨(generate_header_ok "Trends of " ["Flood", "Storm"]
      (YearSel.list 2005 2010)).trans (congrArg Except.ok (by decide)),
    ?_, ?_, ?_, ?_, ?_, ?_, ?_⟩
  · intro t d ys
    simpa [typePhrase] using generate_header_ok t [d] ys
  · intro t d1 d2 ys
    simpa [typePhrase] using generate_header_ok t [d1, d2] ys
  · intro t ys
    simpa [typePhrase] using generate_header_ok t [] ys
  · intro t d1 d2 d3 ds ys
    simpa [typePhrase] using generate_header_ok t (d1 :: d2 :: d3 :: ds) ys
  · intro lo hi h
    simp [yearPhrase, h]
  · intro y
    simp [yearPhrase]
  · exact generate_header_month_ok

/-- C8 witness: the month rule applied at July. -/
theorem C8_generate_header_witness :
    month_map 7 = some "July" ∧
    generate_header "Total number of " ["Flood"] YearSel.absent (some 7)
      = Except.ok ("Total number of " ++ typePhrase ["Flood"] ++
          yearPhrase YearSel.absent ++ " in " ++ "July") :=
  ⟨rfl, C8_generate_header_rules.2.2.2.2.2.2.2 "Total number of " ["Flood"]
    YearSel.absent 7 "July" rfl⟩

/-! ### pandas helpers: `Series.unique` and `sorted` -/

/-- pandas `Series.unique`: the distinct values in order of first appearance.
The `seen` accumulator holds the values already emitted. -/
def pdUniqueAux {α : Type} [DecidableEq α] (seen : List α) : List α → List α
  | [] => []
  | a :: l => if a ∈ seen then pdUniqueAux seen l else a :: pdUniqueAux (a :: seen) l

def pdUnique {α : Type} [DecidableEq α] (l : List α) : List α := pdUniqueAux [] l

theorem mem_pdUniqueAux {α : Type} [DecidableEq α] (x : α) (seen l : List α) :
    x ∈ pdUniqueAux seen l ↔ x ∈ l ∧ x ∉ seen := by
  induction l generalizing seen with
  | nil => simp [pdUniqueAux]
  | cons a l ih =>
    by_cases h : a ∈ seen
    · rw [pdUniqueAux, if_pos h, ih, List.mem_cons]
      constructor
      · rintro ⟨hx, hs⟩
        exact ⟨Or.inr hx, hs⟩
      · rintro ⟨hx | hx, hs⟩
        · exact absurd (hx ▸ h) hs
        · exact ⟨hx, hs⟩
    · rw [pdUniqueAux, if_neg h, List.mem_cons, List.mem_cons, ih]
      by_cases hxa : x = a
      · subst hxa
        simp [h]
      · simp [hxa, List.mem_cons]

theorem nodup_pdUniqueAux {α : Type} [DecidableEq α] (seen l : List α) :
    (pdUniqueAux seen l).Nodup := by
  induction l generalizing seen with
  | nil => simp [pdUniqueAux]
  | cons a l ih =>
    by_cases h : a ∈ seen
    · rw [pdUniqueAux, if_pos h]
      exact ih seen
    · rw [pdUniqueAux, if_neg h, List.nodup_cons]
      refine ⟨?_, ih (a :: seen)⟩
      rw [mem_pdUniqueAux]
      simp

theorem mem_pdUnique {α : Type} [DecidableEq α] (x : α) (l : List α) :
    x ∈ pdUnique l ↔ x ∈ l := by
  simp [pdUnique, mem_pdUniqueAux]

theorem nodup_pdUnique {α : Type} [DecidableEq α] (l : List α) :
    (pdUnique l).Nodup := nodup_pdUniqueAux [] l

/-- Python `sorted` on strings, with the computable comparator so that
concrete instances evaluate in the kernel. -/
def sortedStrings (l : List String) : List String :=
  List.insertionSort (fun a b => strLe a b = true) l

instance : IsTotal String (fun a b => strLe a b = true) :=
  ⟨fun a b => by
    rw [strLe_iff, strLe_iff]
    exact le_total a b⟩

instance : IsTrans String (fun a b => strLe a b = true) :=
  ⟨fun a b c hab hbc => by
    rw [strLe_iff] at hab hbc ⊢
    exact le_trans hab hbc⟩

theorem sortedStrings_perm (l : List String) :
    List.Perm (sortedStrings l) l :=
  List.perm_insertionSort _ l

theorem mem_sortedStrings (x : String) (l : List String) :
    x ∈ sortedStrings l ↔ x ∈ l :=
  (sortedStrings_perm l).mem_iff

theorem sortedStrings_sorted (l : List String) :
    (sortedStrings l).Sorted (· ≤ ·) :=
  (List.sorted_insertionSort _ l).imp fun h => (strLe_iff _ _).mp h

/-! ### Cascading subregion options (`update_subregions`) -/

/-- The `update_subregions` callback: a truthy continent selection filters
the frame on `region.isin(selected_continent)` and returns the `.unique()`
subregions in order of first appearance; an empty or absent selection takes
the `return []` branch. -/
def update_subregions (data : List Record) (selected_continent : List String) :
    List String :=
  if selected_continent.isEmpty then []
  else
    pdUnique ((data.filter
      (fun r => decide (r.region ∈ selected_continent))).map Record.subregion)

/-- The claim's `subregionsFor`, following the specification words: the
distinct subregions of the records passing the continent restriction (all
records when the selection is empty), sorted ascending, deduplicated. -/
def subregionsFor_spec (data : List Record) (selected : List String) :
    List String :=
  sortedStrings (pdUnique ((data.filter
    (fun r => selected.isEmpty || decide (r.region ∈ selected))).map
      Record.subregion))

/-- Two Asian records whose subregions first appear in descending order. -/
def rS1 : Record :=
  ⟨3, "India", "Asia", "Southern Asia", "Flood", "2011", some 5,
   some 3, some 40, some 700⟩

def rS2 : Record :=
  ⟨4, "Kazakhstan", "Asia", "Central Asia", "Drought", "2013", some 6,
   some 1, some 20, some 300⟩

/-- C4 counterexample: with no continent selected the callback returns the
empty option list, not the sorted list of all subregions; with a continent
selected it returns the subregions in order of first appearance, not sorted
ascending. -/
theorem C4_subregions_counterexample :
    update_subregions [rS1, rS2] [] = [] ∧
    subregionsFor_spec [rS1, rS2] [] = ["Central Asia", "Southern Asia"] ∧
    update_subregions [rS1, rS2] [] ≠ subregionsFor_spec [rS1, rS2] [] ∧
    update_subregions [rS1, rS2] ["Asia"] = ["Southern Asia", "Central Asia"] ∧
    subregionsFor_spec [rS1, rS2] ["Asia"] = ["Central Asia", "Southern Asia"] ∧
    update_subregions [rS1, rS2] ["Asia"] ≠ subregionsFor_spec [rS1, rS2] ["Asia"] := by
  decide

/-- C4 (amended): an empty or absent continent selection yields the empty
option list; a non-empty selection yields the distinct subregions of the
matching records, deduplicated (first-occurrence order, without sorting). -/
theorem C4_update_subregions (data : List Record) (selected : List String) :
    (selected = [] → update_subregions data selected = []) ∧
    (selected ≠ [] →
      (update_subregions data selected).Nodup ∧
      ∀ s, s ∈ update_subregions data selected ↔
        ∃ r ∈ data, r.region ∈ selected ∧ r.subregion = s) := by
  constructor
  · intro h
    simp [update_subregions, h]
  · intro h
    have he : ¬ (selected.isEmpty = true) := by
      simp [List.isEmpty_iff, h]
    rw [update_subregions, if_neg he]
    refine ⟨nodup_pdUnique _, ?_⟩
    intro s
    rw [mem_pdUnique]
    simp only [List.mem_map, List.mem_filter, decide_eq_true_eq]
    constructor
    · rintro ⟨r, ⟨hr, hreg⟩, hsub⟩
      exact ⟨r, hr, hreg, hsub⟩
    · rintro ⟨r, hr, hreg, hsub⟩
      exact ⟨r, ⟨hr, hreg⟩, hsub⟩

/-- C4 witness: the amended non-empty clause at a concrete selection. -/
theorem C4_update_subregions_witness :
    (["Asia"] ≠ ([] : List String)) ∧
    (update_subregions [rS1, rS2] ["Asia"]).Nodup :=
  ⟨by decide, ((C4_update_subregions [rS1, rS2] ["Asia"]).2 (by decide)).1⟩

/-! ### Reset button (`reset_filters`) and the default disaster types -/

/-- The module-level `disaster_types = sorted(data['type'].unique())`. -/
def disaster_types (data : List Record) : List String :=
  sortedStrings (pdUnique (data.map Record.type))

/-- The `reset_filters` callback: the click count is ignored and each of the
six filter controls gets its default value back; the disaster-type checklist
gets the full `disaster_types` enumeration, not an unrestricted state. -/
def reset_filters (data : List Record) (n_clicks : Nat) :
    Option (List String) × Option (List String) × Option (List String) ×
      (Int × Int) × Option (List Nat) × List String :=
  (none, none, none, (2000, 2024), none, disaster_types data)

/-- C10: the reset callback is constant in the click count and returns
exactly (no continent, no subregion, no country, year range 2000-2024, no
month, the sorted deduplicated list of every disaster type present in the
dataset). -/
theorem C10_reset_filters_constant (data : List Record) (n m : Nat) :
    reset_filters data n = reset_filters data m ∧
    reset_filters data n =
      (none, none, none, (2000, 2024), none, disaster_types data) ∧
    (disaster_types data).Sorted (· ≤ ·) ∧
    (disaster_types data).Nodup ∧
    (∀ t, t ∈ disaster_types data ↔ t ∈ data.map Record.type) := by
  refine ⟨rfl, rfl, sortedStrings_sorted _, ?_, ?_⟩
  · exact ((sortedStrings_perm _).nodup_iff).mpr
      (nodup_pdUnique (data.map Record.type))
  · intro t
    simp only [disaster_types]
    rw [mem_sortedStrings, mem_pdUnique]

/-! ### Aggregator: groupby-sum, argmax by country, deaths by year -/

/-- pandas `groupby(key)[field].sum()`: one row per distinct key, keys in
sorted order, every null summed as zero (skipna; an all-null group sums to
zero). -/
def groupSumBy (data : List Record) (key : Record → String)
    (f : Record → Option ℚ) : List (String × ℚ) :=
  (sortedStrings (pdUnique (data.map key))).map
    (fun k => (k, ((data.filter (fun r => key r == k)).map
      (fun r => (f r).getD 0)).sum))

theorem groupSumBy_keys (data : List Record) (key : Record → String)
    (f : Record → Option ℚ) :
    (groupSumBy data key f).map Prod.fst =
      sortedStrings (pdUnique (data.map key)) := by
  simp only [groupSumBy, List.map_map]
  exact List.map_id _

theorem groupSumBy_keys_nodup (data : List Record) (key : Record → String)
    (f : Record → Option ℚ) :
    ((groupSumBy data key f).map Prod.fst).Nodup := by
  rw [groupSumBy_keys]
  exact ((sortedStrings_perm _).nodup_iff).mpr (nodup_pdUnique _)

theorem groupSumBy_keys_mem (data : List Record) (key : Record → String)
    (f : Record → Option ℚ) (k : String) :
    k ∈ (groupSumBy data key f).map Prod.fst ↔ k ∈ data.map key := by
  rw [groupSumBy_keys, mem_sortedStrings, mem_pdUnique]

theorem groupSumBy_val (data : List Record) (key : Record → String)
    (f : Record → Option ℚ) (p : String × ℚ) (hp : p ∈ groupSumBy data key f) :
    p.2 = ((data.filter (fun r => key r == p.1)).map
      (fun r => (f r).getD 0)).sum := by
  simp only [groupSumBy, List.mem_map] at hp
  obtain ⟨k, _, rfl⟩ := hp
  rfl

theorem groupSumBy_ne_nil (data : List Record) (key : Record → String)
    (f : Record → Option ℚ) (h : data ≠ []) :
    groupSumBy data key f ≠ [] := by
  match data, h with
  | r :: rest, _ =>
    have hk : key r ∈ (groupSumBy (r :: rest) key f).map Prod.fst := by
      rw [groupSumBy_keys_mem]
      exact List.mem_map_of_mem key (List.mem_cons_self r rest)
    intro hnil
    rw [hnil] at hk
    simp at hk

/-- Every non-empty list of (key, value) rows has a first row attaining the
maximal value. -/
theorem exists_max_snd (l : List (String × ℚ)) (h : l ≠ []) :
    ∃ p, p ∈ l ∧ ∀ q ∈ l, q.2 ≤ p.2 := by
  induction l with
  | nil => exact absurd rfl h
  | cons x xs ih =>
    rcases eq_or_ne xs [] with hx | hx
    · subst hx
      refine ⟨x, List.mem_cons_self x [], ?_⟩
      intro q hq
      rw [List.mem_singleton.mp hq]
    · obtain ⟨p, hp, hmax⟩ := ih hx
      rcases le_total p.2 x.2 with hle | hle
      · refine ⟨x, List.mem_cons_self x xs, ?_⟩
        intro q hq
        rcases List.mem_cons.mp hq with hq | hq
        · rw [hq]
        · exact le_trans (hmax q hq) hle
      · refine ⟨p, List.mem_cons_of_mem x hp, ?_⟩
        intro q hq
        rcases List.mem_cons.mp hq with hq | hq
        · rw [hq]; exact hle
        · exact hmax q hq

/-- The `groupby('country')[field].sum().idxmax() if not filtered_data.empty
else 'N/A'` expressions of `update_stat_cards`: the first country of the
sorted per-country sums attaining the maximum, with the `"N/A"` sentinel on
an empty subset. -/
def update_stat_cards_argmax (data : List Record) (f : Record → Option ℚ) :
    String :=
  if data.isEmpty then "N/A"
  else
    let agg := groupSumBy data Record.country f
    match agg.find? (fun p => agg.all (fun q => decide (q.2 ≤ p.2))) with
    | some p => p.1
    | none => "N/A"

/-- C6: for every statistic field, the argmax-by-country operation returns
the `"N/A"` sentinel on an empty subset, a country whose per-country sum is
maximal on a non-empty subset, and the record's own country on a singleton
subset. -/
theorem C6_argmax_country (f : Record → Option ℚ) :
    update_stat_cards_argmax [] f = "N/A" ∧
    (∀ data : List Record, data ≠ [] →
      ∃ p, p ∈ groupSumBy data Record.country f ∧
        update_stat_cards_argmax data f = p.1 ∧
        ∀ q ∈ groupSumBy data Record.country f, q.2 ≤ p.2) ∧
    (∀ r : Record, update_stat_cards_argmax [r] f = r.country) := by
  refine ⟨rfl, ?_, ?_⟩
  · intro data hne
    have hagg : groupSumBy data Record.country f ≠ [] :=
      groupSumBy_ne_nil data Record.country f hne
    obtain ⟨pm, hpm, hmax⟩ := exists_max_snd _ hagg
    have hsat : ∃ x, x ∈ groupSumBy data Record.country f ∧
        (groupSumBy data Record.country f).all
          (fun q => decide (q.2 ≤ x.2)) = true := by
      refine ⟨pm, hpm, List.all_eq_true.mpr ?_⟩
      intro q hq
      exact decide_eq_true (hmax q hq)
    have hfind : ((groupSumBy data Record.country f).find?
        (fun p => (groupSumBy data Record.country f).all
          (fun q => decide (q.2 ≤ p.2)))).isSome := by
      rw [List.find?_isSome]
      exact hsat
    obtain ⟨p, hp⟩ := Option.isSome_iff_exists.mp hfind
    refine ⟨p, List.mem_of_find?_eq_some hp, ?_, ?_⟩
    · have hde : data.isEmpty = false := by
        simp [List.isEmpty_iff, hne]
      simp only [update_stat_cards_argmax, hde, Bool.false_eq_true, if_false, hp]
    · have := List.find?_some hp
      rw [List.all_eq_true] at this
      intro q hq
      exact of_decide_eq_true (this q hq)
  · intro r
    simp [update_stat_cards_argmax, groupSumBy, pdUnique, pdUniqueAux,
      sortedStrings, List.insertionSort, List.find?, List.all, le_refl]

/-- C6 witness: the singleton clause at a concrete record. -/
theorem C6_argmax_country_witness :
    ([rA] ≠ ([] : List Record)) ∧
    update_stat_cards_argmax [rA] Record.total_deaths = "China" :=
  ⟨by decide, (C6_argmax_country Record.total_deaths).2.2 rA⟩

/-- The `groupby(['year'])['total_deaths'].sum()` rows of
`plot_line_casualty_trend`: one row per distinct year present. -/
def deathsByYear (data : List Record) : List (String × ℚ) :=
  groupSumBy data Record.year Record.total_deaths

/-- The `mean_death` reference line: pandas `.mean()` of the grouped series,
i.e. the sum of the per-year totals divided by the number of rows of the
grouped frame. -/
def mean_death (data : List Record) : ℚ :=
  ((deathsByYear data).map Prod.snd).sum / ((deathsByYear data).length : ℚ)

/-- C9: on a non-empty subset the grouped series has exactly one row per
distinct year present (no duplicates, every present year covered, at least
one row), each row carries the sum of that year's deaths with null counted
as zero, and the reference-line mean is the sum of the per-year totals
divided by the number of distinct years present - a mean across distinct
years, not across records. -/
theorem C9_deaths_by_year (data : List Record) (h : data ≠ []) :
    ((deathsByYear data).map Prod.fst).Nodup ∧
    (∀ y, y ∈ (deathsByYear data).map Prod.fst ↔ y ∈ data.map Record.year) ∧
    deathsByYear data ≠ [] ∧
    (∀ p ∈ deathsByYear data,
      p.2 = ((data.filter (fun r => r.year == p.1)).map
        (fun r => r.total_deaths.getD 0)).sum) ∧
    (deathsByYear data).length = (pdUnique (data.map Record.year)).length ∧
    mean_death data =
      ((deathsByYear data).map Prod.snd).sum /
        ((pdUnique (data.map Record.year)).length : ℚ) := by
  refine ⟨groupSumBy_keys_nodup data Record.year Record.total_deaths,
    fun y => groupSumBy_keys_mem data Record.year Record.total_deaths y,
    groupSumBy_ne_nil data Record.year Record.total_deaths h,
    fun p hp => groupSumBy_val data Record.year Record.total_deaths p hp,
    ?_, ?_⟩
  · have h1 : (deathsByYear data).length =
        (sortedStrings (pdUnique (data.map Record.year))).length := by
      simp [deathsByYear, groupSumBy]
    rw [h1, (sortedStrings_perm _).length_eq]
  · rw [mean_death]
    have h1 : (deathsByYear data).length =
        (sortedStrings (pdUnique (data.map Record.year))).length := by
      simp [deathsByYear, groupSumBy]
    rw [h1, (sortedStrings_perm _).length_eq]

/-- C9 witness: the grouping applied to a concrete one-record subset. -/
theorem C9_deaths_by_year_witness :
    ([rA] ≠ ([] : List Record)) ∧ ((deathsByYear [rA]).map Prod.fst).Nodup :=
  ⟨by decide, (C9_deaths_by_year [rA] (by decide)).1⟩

/-! ### Binner: the two choropleth callbacks -/

/-- pandas `groupby('country')['id'].count()`: one row per distinct country
holding its record count (the numeric value that gets binned). -/
def groupCountBy (data : List Record) : List (String × ℚ) :=
  (sortedStrings (pdUnique (data.map Record.country))).map
    (fun k => (k, ((data.filter (fun r => r.country == k)).length : ℚ)))

/-- The left merge of the per-country aggregate back onto a record: the
aggregated value stored for the record's country. -/
def lookupAgg (agg : List (String × ℚ)) (c : String) : ℚ :=
  match agg.find? (fun p => p.1 == c) with
  | some p => p.2
  | none => 0

/-- pandas `Series.median()`: middle element of the sorted values, or the
mean of the two middle elements for an even count.  (The callbacks never
reach it on an empty frame: the column access raises first.) -/
def listMedian (xs : List ℚ) : ℚ :=
  let s := List.insertionSort (· ≤ ·) xs
  if xs.length % 2 = 1 then s.getD (xs.length / 2) 0
  else (s.getD (xs.length / 2 - 1) 0 + s.getD (xs.length / 2) 0) / 2

/-- A boundary table: (upper bound, label) pairs in increasing order, `none`
standing for the `float('inf')` final bound; the implied lower bound of an
entry is the previous upper bound (0 for the first entry, inclusive because
of `include_lowest=True`). -/
def damage_table (med : ℚ) : List (Option ℚ × String) :=
  if med < 1000000 then
    [(some 1000, "0 - 1K"), (some 10000, "1K - 10K"),
     (some 100000, "10K - 100K"), (some 1000000, "100K - 1M"),
     (none, "> 1M")]
  else if med < 1000000000 then
    [(some 1000000, "0 - 1M"), (some 10000000, "1M - 10M"),
     (some 100000000, "10M - 100M"), (some 1000000000, "100M - 1B"),
     (none, "> 1B")]
  else
    [(some 1000000000, "0 - 1B"), (some 10000000000, "1B - 10B"),
     (some 100000000000, "10B - 100B"), (none, "> 100B")]

/-- The three boundary tables of `mapB_disaster_count_choropleth`, selected
on the median record count. -/
def count_table (med : ℚ) : List (Option ℚ × String) :=
  if med ≤ 20 then
    [(some 10, "0 - 10"), (some 20, "10 - 20"), (some 30, "20 - 30"),
     (some 40, "30 - 40"), (none, "> 40")]
  else if med ≤ 50 then
    [(some 15, "0 - 15"), (some 25, "15 - 25"), (some 50, "25 - 50"),
     (some 100, "50 - 100"), (none, "> 100")]
  else
    [(some 50, "0 - 50"), (some 100, "50 - 100"), (some 200, "100 - 200"),
     (some 300, "200 - 300"), (none, "> 300")]

/-- Walk of the `pd.cut` intervals: the first table entry whose upper bound
covers the value; a `none` bound is `+inf` and always covers. -/
def pdCutGo : List (Option ℚ × String) → ℚ → Option String
  | [], _ => none
  | (some hi, l) :: rest, v => if v ≤ hi then some l else pdCutGo rest v
  | (none, l) :: _, _ => some l

/-- `pd.cut(v, bins, labels, include_lowest=True)`: a value below the first
edge gets no label (`NaN`), otherwise the label of the interval holding it
(first interval closed at 0, later intervals left-open right-closed). -/
def pdCut (tbl : List (Option ℚ × String)) (v : ℚ) : Option String :=
  if v < 0 then none else pdCutGo tbl v

/-- One plotted row of a choropleth frame: the country (None for a
synthesized placeholder), the merged aggregate value column, and the
`pd.cut` category (None for an out-of-range `NaN`). -/
structure Row where
  country : Option String
  value : ℚ
  category : Option String
deriving DecidableEq, Repr

/-- What a choropleth callback hands to plotly: the ordered label list (also
the positional color assignment and the forced legend order) and the row
set. -/
structure MapOut where
  labels : List String
  rows : List Row
deriving DecidableEq, Repr

/-- The per-record rows after the merge and the `pd.cut` column. -/
def realRowsOf (data : List Record) (agg : List (String × ℚ))
    (tbl : List (Option ℚ × String)) : List Row :=
  data.map (fun r =>
    Row.mk (some r.country) (lookupAgg agg r.country)
      (pdCut tbl (lookupAgg agg r.country)))

/-- The `set(labels) - set(existing_categories)` computation: the labels of
the chosen table that no real row carries (`dropna().unique()` on the
category column).  The python set has no documented order; label order is
used here. -/
def missingOf (data : List Record) (agg : List (String × ℚ))
    (tbl : List (Option ℚ × String)) : List String :=
  (tbl.map Prod.snd).filter (fun l =>
    !(decide (l ∈ pdUnique (((realRowsOf data agg tbl).map
      Row.category).reduceOption))))

/-- Sort key of `sort_values('damage_category')`: the positional index of
the category among the ordered labels, `NaN` categories last. -/
def catKey (labels : List String) (row : Row) : Nat :=
  match row.category with
  | some l => labels.indexOf l
  | none => labels.length

/-- The shared tail of the two choropleth callbacks once the per-country
aggregate and the boundary table are fixed: cut every record, synthesize one
placeholder row per missing label carrying the placeholder value `phVal`,
and sort by category. -/
def binRows (data : List Record) (agg : List (String × ℚ))
    (tbl : List (Option ℚ × String)) (phVal : ℚ) : MapOut :=
  let labels := tbl.map Prod.snd
  let rows := realRowsOf data agg tbl ++
    (missingOf data agg tbl).map (fun l => Row.mk none phVal (some l))
  ⟨labels, List.insertionSort (fun a b => catKey labels a ≤ catKey labels b) rows⟩

def mapA_agg (data : List Record) : List (String × ℚ) :=
  groupSumBy data Record.country Record.total_damage

def mapA_median (data : List Record) : ℚ :=
  listMedian (data.map (fun r => lookupAgg (mapA_agg data) r.country))

/-- The damage-map pipeline on a non-empty frame. -/
def mapA_core (data : List Record) : MapOut :=
  binRows data (mapA_agg data) (damage_table (mapA_median data)) 0

/-- `mapA_damage_choropleth`: on an empty store payload `pd.DataFrame([])`
has no columns at all, so `groupby('country')` raises `KeyError` (modelled
as `Except.error`); otherwise the binned frame is produced, with
zero-valued placeholder rows. -/
def mapA_damage_choropleth (data : List Record) : Except String MapOut :=
  if data.isEmpty then Except.error "KeyError: country"
  else Except.ok (mapA_core data)

def mapB_agg (data : List Record) : List (String × ℚ) :=
  groupCountBy data

def mapB_median (data : List Record) : ℚ :=
  listMedian (data.map (fun r => lookupAgg (mapB_agg data) r.country))

/-- The disaster-count pipeline on a non-empty frame; its `missing_df` rows
carry `total_disasters = 1`. -/
def mapB_core (data : List Record) : MapOut :=
  binRows data (mapB_agg data) (count_table (mapB_median data)) 1

/-- `mapB_disaster_count_choropleth`: same empty-frame `KeyError`, and
placeholder rows carrying the value 1. -/
def mapB_disaster_count_choropleth (data : List Record) : Except String MapOut :=
  if data.isEmpty then Except.error "KeyError: country"
  else Except.ok (mapB_core data)

theorem pdCutGo_total (tbl : List (Option ℚ × String)) (v : ℚ)
    (h : ∃ l, ((none : Option ℚ), l) ∈ tbl) :
    ∃ l, pdCutGo tbl v = some l ∧ l ∈ tbl.map Prod.snd := by
  induction tbl with
  | nil =>
    obtain ⟨l, hl⟩ := h
    cases hl
  | cons e rest ih =>
    obtain ⟨b, lab⟩ := e
    cases b with
    | none => exact ⟨lab, rfl, by simp⟩
    | some hi =>
      by_cases hv : v ≤ hi
      · exact ⟨lab, by simp [pdCutGo, hv], by simp⟩
      · have hrest : ∃ l, ((none : Option ℚ), l) ∈ rest := by
          obtain ⟨l, hl⟩ := h
          rcases List.mem_cons.mp hl with heq | hm
          · simp at heq
          · exact ⟨l, hm⟩
        obtain ⟨l, h1, h2⟩ := ih hrest
        refine ⟨l, by simp [pdCutGo, hv, h1], by simp [h2]⟩

/-- Every non-negative value falls into exactly the interval `pd.cut`
assigns, and that label is one of the table labels. -/
theorem pdCut_total (tbl : List (Option ℚ × String)) (v : ℚ) (hv : 0 ≤ v)
    (h : ∃ l, ((none : Option ℚ), l) ∈ tbl) :
    ∃ l, pdCut tbl v = some l ∧ l ∈ tbl.map Prod.snd := by
  rw [pdCut, if_neg (not_lt.mpr hv)]
  exact pdCutGo_total tbl v h

theorem damage_table_inf (med : ℚ) :
    ∃ l, ((none : Option ℚ), l) ∈ damage_table med := by
  rw [damage_table]
  split_ifs
  · exact ⟨"> 1M", by simp⟩
  · exact ⟨"> 1B", by simp⟩
  · exact ⟨"> 100B", by simp⟩

theorem count_table_inf (med : ℚ) :
    ∃ l, ((none : Option ℚ), l) ∈ count_table med := by
  rw [count_table]
  split_ifs
  · exact ⟨"> 40", by simp⟩
  · exact ⟨"> 100", by simp⟩
  · exact ⟨"> 300", by simp⟩

theorem damage_table_nodup (med : ℚ) :
    ((damage_table med).map Prod.snd).Nodup := by
  rw [damage_table]
  split_ifs <;> decide

theorem count_table_nodup (med : ℚ) :
    ((count_table med).map Prod.snd).Nodup := by
  rw [count_table]
  split_ifs <;> decide

theorem binRows_rows_perm (data : List Record) (agg : List (String × ℚ))
    (tbl : List (Option ℚ × String)) (phVal : ℚ) :
    List.Perm (binRows data agg tbl phVal).rows
      (realRowsOf data agg tbl ++
        (missingOf data agg tbl).map (fun l => Row.mk none phVal (some l))) :=
  List.perm_insertionSort _ _

theorem binRows_rows_mem (data : List Record) (agg : List (String × ℚ))
    (tbl : List (Option ℚ × String)) (phVal : ℚ) (row : Row) :
    row ∈ (binRows data agg tbl phVal).rows ↔
      row ∈ realRowsOf data agg tbl ∨
      row ∈ (missingOf data agg tbl).map (fun l => Row.mk none phVal (some l)) := by
  rw [(binRows_rows_perm data agg tbl phVal).mem_iff, List.mem_append]

theorem binRows_rows_countP (data : List Record) (agg : List (String × ℚ))
    (tbl : List (Option ℚ × String)) (phVal : ℚ) (p : Row → Bool) :
    (binRows data agg tbl phVal).rows.countP p =
      (realRowsOf data agg tbl).countP p +
      ((missingOf data agg tbl).map
        (fun l => Row.mk none phVal (some l))).countP p := by
  rw [(binRows_rows_perm data agg tbl phVal).countP_eq, List.countP_append]

theorem mem_missingOf (data : List Record) (agg : List (String × ℚ))
    (tbl : List (Option ℚ × String)) (l : String) :
    l ∈ missingOf data agg tbl ↔
      l ∈ tbl.map Prod.snd ∧
      ∀ row ∈ realRowsOf data agg tbl, row.category ≠ some l := by
  rw [missingOf, List.mem_filter]
  simp only [Bool.not_eq_true', decide_eq_false_iff_not, mem_pdUnique,
    List.reduceOption_mem_iff, List.mem_map]
  constructor
  · rintro ⟨h1, h2⟩
    refine ⟨h1, ?_⟩
    intro row hrow hcat
    exact h2 ⟨row, hrow, hcat⟩
  · rintro ⟨h1, h2⟩
    refine ⟨h1, ?_⟩
    rintro ⟨row, hrow, hcat⟩
    exact h2 row hrow hcat

/-- Completeness: every label of the chosen table is carried by some row
(a real one or the synthesized placeholder). -/
theorem binRows_complete (data : List Record) (agg : List (String × ℚ))
    (tbl : List (Option ℚ × String)) (phVal : ℚ) (l : String)
    (hl : l ∈ tbl.map Prod.snd) :
    (binRows data agg tbl phVal).rows.any
      (fun row => row.category == some l) = true := by
  rw [List.any_eq_true]
  by_cases h : ∀ row ∈ realRowsOf data agg tbl, row.category ≠ some l
  · refine ⟨Row.mk none phVal (some l), ?_, by simp⟩
    rw [binRows_rows_mem]
    exact Or.inr (List.mem_map_of_mem _ ((mem_missingOf data agg tbl l).mpr ⟨hl, h⟩))
  · push_neg at h
    obtain ⟨row, hrow, hcat⟩ := h
    refine ⟨row, ?_, by simp [hcat]⟩
    rw [binRows_rows_mem]
    exact Or.inl hrow

/-- Partition: a country of the input falls into exactly one label bucket
(placeholder rows carry no country and do not interfere). -/
theorem binRows_partition (data : List Record) (agg : List (String × ℚ))
    (tbl : List (Option ℚ × String)) (phVal : ℚ)
    (hinf : ∃ l, ((none : Option ℚ), l) ∈ tbl)
    (hnodup : (tbl.map Prod.snd).Nodup)
    (c : String) (hc : c ∈ data.map Record.country)
    (hv : 0 ≤ lookupAgg agg c) :
    (tbl.map Prod.snd).countP (fun l =>
      (binRows data agg tbl phVal).rows.any
        (fun row => row.country == some c && row.category == some l)) = 1 := by
  obtain ⟨lc, hcut, hlc⟩ := pdCut_total tbl (lookupAgg agg c) hv hinf
  have hPP : ∀ l ∈ tbl.map Prod.snd,
      ((binRows data agg tbl phVal).rows.any
        (fun row => row.country == some c && row.category == some l) = true) ↔
      ((l == lc) = true) := by
    intro l _
    rw [List.any_eq_true]
    constructor
    · rintro ⟨row, hrow, hpred⟩
      rw [binRows_rows_mem] at hrow
      rcases hrow with hreal | hph
      · obtain ⟨r, hr, rfl⟩ := List.mem_map.mp hreal
        simp only [Bool.and_eq_true, beq_iff_eq, Option.some.injEq] at hpred
        obtain ⟨h1, h2⟩ := hpred
        rw [h1, hcut] at h2
        exact beq_iff_eq.mpr (Option.some.inj h2).symm
      · obtain ⟨l2, _, rfl⟩ := List.mem_map.mp hph
        simp at hpred
    · intro hleq
      have hl2 : l = lc := by simpa using hleq
      subst hl2
      obtain ⟨r, hr, hrc⟩ := List.mem_map.mp hc
      refine ⟨Row.mk (some r.country) (lookupAgg agg r.country)
        (pdCut tbl (lookupAgg agg r.country)), ?_, ?_⟩
      · rw [binRows_rows_mem]
        exact Or.inl (List.mem_map_of_mem _ hr)
      · simp [hrc, hcut]
  rw [List.countP_congr hPP]
  exact List.count_eq_one_of_mem hnodup hlc

/-- Placeholder synthesis: a label with no real member gets exactly one
placeholder row, under no country and carrying the placeholder value. -/
theorem binRows_placeholder (data : List Record) (agg : List (String × ℚ))
    (tbl : List (Option ℚ × String)) (phVal : ℚ)
    (hnodup : (tbl.map Prod.snd).Nodup)
    (l : String) (hl : l ∈ tbl.map Prod.snd)
    (hempty : ∀ row ∈ realRowsOf data agg tbl, row.category ≠ some l) :
    (binRows data agg tbl phVal).rows.countP
      (fun row => row.country == (none : Option String) &&
        row.category == some l && decide (row.value = phVal)) = 1 := by
  rw [binRows_rows_countP]
  have h1 : (realRowsOf data agg tbl).countP
      (fun row => row.country == (none : Option String) &&
        row.category == some l && decide (row.value = phVal)) = 0 := by
    rw [List.countP_eq_zero]
    intro row hrow
    obtain ⟨r, _, rfl⟩ := List.mem_map.mp hrow
    simp
  have h2 : ((missingOf data agg tbl).map
      (fun l2 => Row.mk none phVal (some l2))).countP
      (fun row => row.country == (none : Option String) &&
        row.category == some l && decide (row.value = phVal)) =
      (missingOf data agg tbl).countP (fun l2 => l2 == l) := by
    rw [List.countP_map]
    apply List.countP_congr
    intro l2 _
    simp [Function.comp]
  rw [h1, h2]
  have hm : l ∈ missingOf data agg tbl :=
    (mem_missingOf data agg tbl l).mpr ⟨hl, hempty⟩
  have hnodupM : (missingOf data agg tbl).Nodup := hnodup.filter _
  simpa using List.count_eq_one_of_mem hnodupM hm

theorem lookupAgg_nonneg_damage (data : List Record)
    (hd : ∀ r ∈ data, 0 ≤ r.total_damage.getD 0) (c : String) :
    0 ≤ lookupAgg (mapA_agg data) c := by
  rw [lookupAgg]
  cases hfind : (mapA_agg data).find? (fun p => p.1 == c) with
  | none => exact le_refl 0
  | some p =>
    have hp := List.mem_of_find?_eq_some hfind
    show 0 ≤ p.2
    rw [groupSumBy_val data Record.country Record.total_damage p hp]
    apply List.sum_nonneg
    intro x hx
    obtain ⟨r, hr, rfl⟩ := List.mem_map.mp hx
    exact hd r (List.mem_of_mem_filter hr)

theorem lookupAgg_nonneg_count (data : List Record) (c : String) :
    0 ≤ lookupAgg (mapB_agg data) c := by
  rw [lookupAgg]
  cases hfind : (mapB_agg data).find? (fun p => p.1 == c) with
  | none => exact le_refl 0
  | some p =>
    have hp := List.mem_of_find?_eq_some hfind
    show 0 ≤ p.2
    simp only [mapB_agg, groupCountBy, List.mem_map] at hp
    obtain ⟨k, _, rfl⟩ := hp
    exact Nat.cast_nonneg _

/-- C2 counterexample: on a one-record store the disaster-count map has four
empty buckets; the placeholder row synthesized for each of them carries the
value 1 (`'total_disasters': [1]*len(missing_categories)`), not 0 — no
zero-valued placeholder exists at all. -/
theorem C2_binner_counterexample :
    Row.mk none 1 (some "10 - 20") ∈ (mapB_core [rA]).rows ∧
    ¬ (Row.mk none 0 (some "10 - 20") ∈ (mapB_core [rA]).rows) ∧
    (mapB_core [rA]).labels =
      ["0 - 10", "10 - 20", "20 - 30", "30 - 40", "> 40"] := by
  decide

/-- C2 (amended): on every non-empty store (with the schema's non-negative
damage figures) each choropleth callback succeeds; the emitted ordered label
list is the full label list of the boundary table chosen by the median
dispatch (same length however many buckets are empty); every label is
carried by some row; every input country falls in exactly one bucket; and a
label with no real member gets exactly one synthesized placeholder row under
a null country — zero-valued for the damage binner, but carrying the value 1
for the disaster-count binner. -/
theorem C2_binner_partition_placeholders (data : List Record)
    (hne : data ≠ [])
    (hd : ∀ r ∈ data, 0 ≤ r.total_damage.getD 0) :
    mapA_damage_choropleth data = Except.ok (mapA_core data) ∧
    (mapA_core data).labels = (damage_table (mapA_median data)).map Prod.snd ∧
    (mapA_core data).labels.length = (damage_table (mapA_median data)).length ∧
    (∀ l ∈ (mapA_core data).labels,
      (mapA_core data).rows.any (fun row => row.category == some l) = true) ∧
    (∀ c ∈ data.map Record.country,
      (mapA_core data).labels.countP (fun l =>
        (mapA_core data).rows.any (fun row =>
          row.country == some c && row.category == some l)) = 1) ∧
    (∀ l ∈ (mapA_core data).labels,
      (∀ row ∈ realRowsOf data (mapA_agg data) (damage_table (mapA_median data)),
        row.category ≠ some l) →
      (mapA_core data).rows.countP (fun row =>
        row.country == (none : Option String) && row.category == some l &&
          decide (row.value = 0)) = 1) ∧
    mapB_disaster_count_choropleth data = Except.ok (mapB_core data) ∧
    (mapB_core data).labels = (count_table (mapB_median data)).map Prod.snd ∧
    (mapB_core data).labels.length = (count_table (mapB_median data)).length ∧
    (∀ l ∈ (mapB_core data).labels,
      (mapB_core data).rows.any (fun row => row.category == some l) = true) ∧
    (∀ c ∈ data.map Record.country,
      (mapB_core data).labels.countP (fun l =>
        (mapB_core data).rows.any (fun row =>
          row.country == some c && row.category == some l)) = 1) ∧
    (∀ l ∈ (mapB_core data).labels,
      (∀ row ∈ realRowsOf data (mapB_agg data) (count_table (mapB_median data)),
        row.category ≠ some l) →
      (mapB_core data).rows.countP (fun row =>
        row.country == (none : Option String) && row.category == some l &&
          decide (row.value = 1)) = 1) := by
  have hde : ¬ (data.isEmpty = true) := by
    simp [List.isEmpty_iff, hne]
  refine ⟨?_, rfl, ?_, ?_, ?_, ?_, ?_, rfl, ?_, ?_, ?_, ?_⟩
  · rw [mapA_damage_choropleth, if_neg hde]
  · exact (List.length_map _ _).symm ▸ rfl
  · intro l hl
    exact binRows_complete data (mapA_agg data)
      (damage_table (mapA_median data)) 0 l hl
  · intro c hc
    exact binRows_partition data (mapA_agg data)
      (damage_table (mapA_median data)) 0
      (damage_table_inf (mapA_median data))
      (damage_table_nodup (mapA_median data)) c hc
      (lookupAgg_nonneg_damage data hd c)
  · intro l hl hempty
    exact binRows_placeholder data (mapA_agg data)
      (damage_table (mapA_median data)) 0
      (damage_table_nodup (mapA_median data)) l hl hempty
  · rw [mapB_disaster_count_choropleth, if_neg hde]
  · exact (List.length_map _ _).symm ▸ rfl
  · intro l hl
    exact binRows_complete data (mapB_agg data)
      (count_table (mapB_median data)) 1 l hl
  · intro c hc
    exact binRows_partition data (mapB_agg data)
      (count_table (mapB_median data)) 1
      (count_table_inf (mapB_median data))
      (count_table_nodup (mapB_median data)) c hc
      (lookupAgg_nonneg_count data c)
  · intro l hl hempty
    exact binRows_placeholder data (mapB_agg data)
      (count_table (mapB_median data)) 1
      (count_table_nodup (mapB_median data)) l hl hempty

/-- C2 witness: the amended theorem applied to a concrete one-record store. -/
theorem C2_binner_witness :
    mapA_damage_choropleth [rA] = Except.ok (mapA_core [rA]) ∧
    mapB_disaster_count_choropleth [rA] = Except.ok (mapB_core [rA]) := by
  have h := C2_binner_partition_placeholders [rA] (by decide)
    (by
      intro r hr
      rw [List.mem_singleton] at hr
      subst hr
      norm_num [rA])
  exact ⟨h.1, h.2.2.2.2.2.2.1⟩

/-- C5: on an empty filtered subset the store payload is an empty list, so
`pd.DataFrame(data)` has no columns and the first `groupby('country')`
raises `KeyError` — both map callbacks treat the empty subset as a fault
instead of returning a single zero bin. -/
theorem C5_empty_subset_faults :
    mapA_damage_choropleth [] = Except.error "KeyError: country" ∧
    mapB_disaster_count_choropleth [] = Except.error "KeyError: country" :=
  ⟨rfl, rfl⟩

end Dash
